import Mathlib

/-!
Verification of the AI-Deception-Layer honeypot engine specification.

The repository's visible source is the dashboard (React pages, the `jget`
API client, the theme) and the attack-simulation script; the
request-classification / risk-scoring engine itself is specified by
`spec.md` but its source is not present.  Definitions for the engine are
therefore modelled from the spec (each such definition says so in its doc
comment); the dashboard API client `jget` and the risk-level threshold
labels are taken from the source files.
-/

namespace Honeypot

/-- Risk level of a session, one of the four tiers shown by the dashboard
(RiskChip renders exactly CRITICAL / HIGH / MED / LOW). -/
inductive RiskLevel where
  | LOW
  | MED
  | HIGH
  | CRITICAL
  deriving Repr, DecidableEq

/-- Numeric rank of a risk level, used to state monotonicity. -/
def RiskLevel.rank : RiskLevel → Nat
  | .LOW => 0
  | .MED => 1
  | .HIGH => 2
  | .CRITICAL => 3

/-- Modelled from the spec: `risk_level` recomputed from thresholds:
CRITICAL ≥ 80, HIGH 60–79, MED 30–59, LOW otherwise (spec §4.3 step 6,
matching the dashboard labels "Risk ≥ 80" and "Risk 60–79" in
Overview.jsx). -/
def riskLevelOf (r : Nat) : RiskLevel :=
  if 80 ≤ r then .CRITICAL
  else if 60 ≤ r then .HIGH
  else if 30 ≤ r then .MED
  else .LOW

/-- Modelled from the spec: a normalized Request Event (spec §3, §6):
timestamp, source IP, user agent, method, path, raw query string, parsed
query parameters, raw body, and the parsed JSON login/command fields when
applicable ("body (raw + parsed JSON if applicable)"). -/
structure RequestEvent where
  timestamp : Nat
  ip : String
  user_agent : String
  method : String
  path : String
  query : String
  params : List (String × String)
  body : String
  body_username : Option String
  body_password : Option String
  body_command : Option String
  deriving Repr, DecidableEq

/-- Whether the character list `pat` occurs at the front of `s`. -/
def charsAtFront : List Char → List Char → Bool
  | [], _ => true
  | _ :: _, [] => false
  | p :: ps, c :: cs => p == c && charsAtFront ps cs

/-- Whether the character list `pat` occurs anywhere inside `s`. -/
def charsContain (pat : List Char) : List Char → Bool
  | [] => pat.isEmpty
  | c :: cs => charsAtFront pat (c :: cs) || charsContain pat cs

/-- Whether the pattern `pat` occurs as a substring of `s`. -/
def containsSub (s pat : String) : Bool :=
  charsContain pat.data s.data

/-- Modelled from the spec: one signature match, `Match = {flag, points,
evidence}` (spec §4.1). -/
structure Match where
  flag : String
  points : Nat
  evidence : String
  deriving Repr, DecidableEq

/-- Modelled from the spec: result of classifying one event,
`ClassificationResult{matches, delta_score}` (spec §4.2). -/
structure ClassificationResult where
  matched : List Match
  delta_score : Nat
  deriving Repr, DecidableEq

/-- Look up a query parameter of the event by name. -/
def getParam (e : RequestEvent) (k : String) : Option String :=
  (e.params.find? (fun p => p.1 == k)).map Prod.snd

/-- Modelled from the spec: the command string an rce-style request
carries — the `cmd` query parameter or the parsed JSON `command` body
field (spec §4.5: "records the requested command string as intel"). -/
def extractCmd (e : RequestEvent) : Option String :=
  match getParam e "cmd" with
  | some c => some c
  | none => e.body_command

/-- Modelled from the spec: the path deny-list entries whose point values
the simulation script documents: `/admin` +25, `/config` +30, `/backup`
+30 (simulate_attack.sh phase 1; spec §4.1 path matcher). -/
def pathSignatureTable : List (String × String × Nat) :=
  [("/admin", "admin-probe", 25),
   ("/config", "config-probe", 30),
   ("/backup", "backup-probe", 30)]

/-- Modelled from the spec: path/endpoint matcher over the deny-list
(spec §4.1). -/
def pathMatches (e : RequestEvent) : List Match :=
  pathSignatureTable.foldr
    (fun sig acc =>
      if e.path == sig.1 then ⟨sig.2.1, sig.2.2, e.path⟩ :: acc else acc)
    []

/-- Modelled from the spec: SQL-injection tokens searched in body and
query string (spec §4.1: `OR 1=1`, `UNION SELECT`, stacked quotes). -/
def sqliTokens : List String := ["OR 1=1", "UNION SELECT", "' OR", "--"]

/-- Modelled from the spec: path-traversal tokens (spec §4.1: `../`,
`....//`). -/
def traversalTokens : List String := ["../", "....//"]

/-- Modelled from the spec: command-injection tokens (spec §4.1:
`bash -c`, `whoami`, `cat /etc/passwd`). -/
def rceTokens : List String := ["bash -c", "whoami", "cat /etc/passwd"]

/-- Whether any of the tokens occurs in the event's body or raw query
string. -/
def anyTokenIn (e : RequestEvent) (tokens : List String) : Bool :=
  tokens.any (fun t => containsSub e.body t || containsSub e.query t)

/-- Modelled from the spec: payload matcher producing `sqli-attempt` +25,
`path-traversal` +25 and `rce-attempt` +35 matches (spec §1 point values;
spec §4.1 payload matcher classes). -/
def payloadMatches (e : RequestEvent) : List Match :=
  (if anyTokenIn e sqliTokens then [⟨"sqli-attempt", 25, e.body ++ e.query⟩] else []) ++
  (if anyTokenIn e traversalTokens then [⟨"path-traversal", 25, e.body ++ e.query⟩] else []) ++
  (if anyTokenIn e rceTokens then [⟨"rce-attempt", 35, e.body ++ e.query⟩] else [])

/-- Modelled from the spec: suspicious privileged usernames (spec §4.1
credential matcher: `root`, `admin`, `sa`). -/
def suspiciousUsernames : List String := ["root", "admin", "sa"]

/-- Modelled from the spec: credential matcher, a behavioral signal on
login-style bodies attempting privileged accounts, +25 per the simulation
script (spec §4.1). -/
def credentialMatches (e : RequestEvent) : List Match :=
  match e.body_username with
  | none => []
  | some u =>
      if suspiciousUsernames.any (fun s => containsSub u s) then
        [⟨"credential-probe", 25, u⟩]
      else []

/-- Insert a path into an accumulator of distinct paths, keeping only the
first occurrence. -/
def addDistinct (acc : List String) (p : String) : List String :=
  if p ∈ acc then acc else acc ++ [p]

/-- Distinct paths of a list, first occurrences in order. -/
def distinctPaths (ps : List String) : List String :=
  ps.foldl addDistinct []

/-- Paths of the recent-window entries recorded within `t` seconds of
`now`. -/
def recentPaths (now t : Nat) (w : List (Nat × String)) : List String :=
  (w.filter (fun p => now ≤ p.1 + t)).map Prod.snd

/-- Modelled from the spec: burst matcher — flags `path-sweep` +15 when at
least 6 distinct paths (the current one included) are hit within a
5-second window (spec §4.1: "≥6 distinct paths within 5 seconds ⇒
path-sweep, +15"). -/
def burstFires (e : RequestEvent) (w : List (Nat × String)) : Bool :=
  6 ≤ (distinctPaths (recentPaths e.timestamp 5 w ++ [e.path])).length

/-- Modelled from the spec: burst matcher match list (spec §4.1). -/
def burstMatches (e : RequestEvent) (w : List (Nat × String)) : List Match :=
  if burstFires e w then [⟨"path-sweep", 15, e.path⟩] else []

/-- Modelled from the spec: an evaluable signature; its evaluator may fail
with a `SignatureEvaluationError`, modelled as the error message
(spec §7). -/
structure EvalSig where
  name : String
  eval : RequestEvent → List (Nat × String) → Except String (List Match)

/-- Modelled from the spec: the signature library loaded at process start
(spec §4.1), each of the four matcher classes as one total signature. -/
def baseSignatures : List EvalSig :=
  [⟨"path-deny-list", fun e _ => .ok (pathMatches e)⟩,
   ⟨"payload-tokens", fun e _ => .ok (payloadMatches e)⟩,
   ⟨"credential-probe", fun e _ => .ok (credentialMatches e)⟩,
   ⟨"burst-window", fun e w => .ok (burstMatches e w)⟩]

/-- Modelled from the spec: evaluate a signature list over one event and
its recent window; a signature whose evaluation fails is isolated and
skipped, never aborting classification (spec §7
`SignatureEvaluationError`). -/
def evalSignatures (sigs : List EvalSig) (e : RequestEvent)
    (w : List (Nat × String)) : List Match :=
  sigs.foldr
    (fun sg acc =>
      match sg.eval e w with
      | .ok ms => ms ++ acc
      | .error _ => acc)
    []

/-- Modelled from the spec: `classify(event, recent_window)` with an
explicit signature list — all matches are collected and summed, delta
floor 0 (spec §4.2). -/
def classifyWith (sigs : List EvalSig) (e : RequestEvent)
    (w : List (Nat × String)) : ClassificationResult :=
  let ms := evalSignatures sigs e w
  ⟨ms, ms.foldr (fun m acc => m.points + acc) 0⟩

/-- Modelled from the spec: the Event Classifier over the loaded signature
library (spec §4.2). -/
def classify (e : RequestEvent) (w : List (Nat × String)) :
    ClassificationResult :=
  classifyWith baseSignatures e w

/-- Modelled from the spec: intel harvested from an attacker-submitted
credential pair (spec §4.5 `credential_intel`). -/
structure CredentialIntel where
  username : String
  password : String
  pattern : String
  deriving Repr, DecidableEq

/-- Modelled from the spec: intel harvested from a probe of the fake
admin surface (spec §4.5 `admin_intel`). -/
structure AdminIntel where
  probed_path : String
  deriving Repr, DecidableEq

/-- Modelled from the spec: one synthesized Deception Record (spec §3):
timestamp, path, risk_score of the triggering event, flags, and whichever
intel payload applies. -/
structure DeceptionRecord where
  deception_id : Nat
  timestamp : Nat
  path : String
  risk_score : Nat
  flags : List String
  credential_intel : Option CredentialIntel
  admin_intel : Option AdminIntel
  command_intel : Option String
  deriving Repr, DecidableEq

/-- Modelled from the spec: the response payload sent back to the
attacker (spec §4.5). -/
structure ResponsePayload where
  body : String
  deriving Repr, DecidableEq

/-- Modelled from the spec: fabricated command output for an rce-attempt
— a fixed table of fake strings, consulting nothing but the submitted
command text (spec §4.5: "returns fabricated command output (never
executes anything)"). -/
def fabricatedCmdOutput (cmd : String) : String :=
  if containsSub cmd "whoami" then "root"
  else if containsSub cmd "cat /etc/passwd" then
    "root:x:0:0:root:/root:/bin/bash"
  else "sh: " ++ cmd ++ ": command not found"

/-- Modelled from the spec: fabricated file body for a path-traversal /
LFI attempt, resembling the requested target without touching any real
filesystem (spec §4.5). -/
def fabricatedFileBody (target : String) : String :=
  "root:x:0:0:root:/root:/bin/bash\n# decoy copy of " ++ target

/-- Modelled from the spec: classification attached to captured
credentials (spec §4.5: "default-creds", "sql-injection-in-credential"). -/
def credentialPattern (u : String) : String :=
  if anyTokenInText u then "sql-injection-in-credential" else "default-creds"
where
  anyTokenInText (s : String) : Bool :=
    sqliTokens.any (fun t => containsSub s t)

/-- Whether a flag name occurs among the matches. -/
def hasFlag (cls : ClassificationResult) (f : String) : Bool :=
  cls.matched.any (fun m => m.flag == f)

/-- Modelled from the spec: the Deception Responder,
`build(event, classification) -> DeceptionRecord & ResponsePayload`,
keyed by dominant flag: suspicious login → credential_intel; rce-attempt →
fabricated command output plus the requested command string as intel;
path-traversal → fabricated file body; admin-probe → fake admin landing
page plus admin_intel; default → ordinary decoy.  The component is a pure
function of the event and classification: every intel field is
attacker-supplied input echoed back in structured form, and no branch
executes or resolves anything (spec §4.5). -/
def build (did : Nat) (e : RequestEvent) (cls : ClassificationResult) :
    DeceptionRecord × ResponsePayload :=
  let base : DeceptionRecord :=
    ⟨did, e.timestamp, e.path, cls.delta_score,
     cls.matched.map (fun m => m.flag), none, none, none⟩
  match e.body_username, e.body_password with
  | some u, some pw =>
      ({ base with credential_intel := some ⟨u, pw, credentialPattern u⟩ },
       ⟨"\x7b\"ok\":false,\"error\":\"invalid credentials\"\x7d"⟩)
  | _, _ =>
      if hasFlag cls "rce-attempt" then
        let cmd := (extractCmd e).getD e.body
        ({ base with command_intel := some cmd },
         ⟨fabricatedCmdOutput cmd⟩)
      else if hasFlag cls "path-traversal" then
        ({ base with command_intel := none },
         ⟨fabricatedFileBody ((getParam e "path").getD e.path)⟩)
      else if hasFlag cls "admin-probe" then
        ({ base with admin_intel := some ⟨e.path⟩ },
         ⟨"<html><title>Admin Console</title>Welcome back, admin.</html>"⟩)
      else
        (base, ⟨"\x7b\"ok\":true\x7d"⟩)

/-- Modelled from the spec: a Session aggregate, keyed by
(ip, user_agent), with session_id derived deterministically from the key,
counters, the monotone running maximum `max_risk`, the derived
`risk_level`, the flag set with insertion order preserved, bounded event
history (the burst window of recent (timestamp, path) pairs) and the
ordered deception history (spec §3). -/
structure Session where
  session_id : String
  ip : String
  user_agent : String
  total_requests : Nat
  running_total : Nat
  max_risk : Nat
  risk_level : RiskLevel
  flags : List String
  last_path : String
  last_seen : Nat
  history : List (Nat × String)
  deceptions : List DeceptionRecord
  deriving Repr, DecidableEq

/-- Bounded-history cap, default 50, consistent with the dashboard's
`events=50` default (spec §4.3 step 2). -/
def historyCap : Nat := 50

/-- Drop the oldest entries beyond the cap. -/
def trimOld {α : Type} (cap : Nat) (l : List α) : List α :=
  if cap < l.length then l.drop (l.length - cap) else l

/-- Whether a session has the given key. -/
def keyMatch (ip ua : String) (s : Session) : Bool :=
  s.ip == ip && s.user_agent == ua

/-- Modelled from the spec: a freshly created Session for a new
(ip, user_agent) key (spec §4.3 step 1; §3 "created on first event"). -/
def freshSession (ip ua : String) : Session :=
  ⟨ip ++ "|" ++ ua, ip, ua, 0, 0, 0, riskLevelOf 0, [], "", 0, [], []⟩

/-- Union one flag into the ordered flag set; re-adding is a no-op. -/
def addFlag (fs : List String) (f : String) : List String :=
  if f ∈ fs then fs else fs ++ [f]

/-- Modelled from the spec: the mutation one `record(event,
classification)` call performs on the resolved Session (spec §4.3 steps
2–6): append to bounded history, bump counters, union flags, accumulate
the running total, take the running maximum into `max_risk` and recompute
`risk_level` from it. -/
def applyRecord (e : RequestEvent) (cls : ClassificationResult)
    (s : Session) : Session :=
  let total := s.running_total + cls.delta_score
  let mr := max s.max_risk total
  { s with
      total_requests := s.total_requests + 1,
      last_path := e.path,
      last_seen := e.timestamp,
      flags := cls.matched.foldl (fun acc m => addFlag acc m.flag) s.flags,
      running_total := total,
      max_risk := mr,
      risk_level := riskLevelOf mr,
      history := trimOld historyCap (s.history ++ [(e.timestamp, e.path)]) }

/-- Alert lifecycle status (spec §3: status ∈ OPEN, ACK, CLOSED). -/
inductive AlertStatus where
  | OPEN
  | ACK
  | CLOSED
  deriving Repr, DecidableEq

/-- Modelled from the spec: an Alert record (spec §3). -/
structure Alert where
  alert_id : Nat
  timestamp : Nat
  session_id : String
  severity : RiskLevel
  type : String
  reason : String
  risk : Nat
  status : AlertStatus
  deriving Repr, DecidableEq

/-- Whether an alert is the open (non-CLOSED) alert for the dedup key
(session_id, type). -/
def openKeyMatch (sid ty : String) (a : Alert) : Bool :=
  a.session_id == sid && a.type == ty && !(a.status == .CLOSED)

/-- Modelled from the spec: raise an alert with dedup — either create a
new OPEN alert or, when an open alert with the same (session_id, type)
dedup key exists, update its risk and timestamp in place rather than
duplicating (spec §4.4). -/
def raiseAlert (alerts : List Alert) (nid : Nat) (ts : Nat)
    (sid : String) (ty : String) (sev : RiskLevel) (reason : String)
    (risk : Nat) : List Alert × Nat :=
  if alerts.any (openKeyMatch sid ty) then
    (alerts.map (fun a =>
       if openKeyMatch sid ty a then { a with risk := risk, timestamp := ts }
       else a),
     nid)
  else
    (alerts ++ [⟨nid, ts, sid, sev, ty, reason, risk, .OPEN⟩], nid + 1)

/-- Modelled from the spec: the high-severity flags that raise dedicated
alerts of matching type (spec §4.4). -/
def highSeverityFlags : List String :=
  ["rce-attempt", "sqli-attempt", "path-traversal"]

/-- Modelled from the spec: the risk-level-crossing rule — a transition
into HIGH or CRITICAL raises/updates a `risk-escalation` alert with the
new level as severity (spec §4.4). -/
def evalRiskCross (snap : Session) (prevLevel : RiskLevel)
    (alerts : List Alert) (nid : Nat) (ts : Nat) : List Alert × Nat :=
  if prevLevel.rank < snap.risk_level.rank ∧
      (snap.risk_level = .HIGH ∨ snap.risk_level = .CRITICAL) then
    raiseAlert alerts nid ts snap.session_id "risk-escalation"
      snap.risk_level "session risk crossed into high band" snap.max_risk
  else (alerts, nid)

/-- Modelled from the spec: the high-severity-flag rule — every
high-severity flag present on the session raises a dedicated alert of
matching type, deduplicated by (session_id, type) (spec §4.4). -/
def evalHighFlags (snap : Session) (ts : Nat) (acc : List Alert × Nat) :
    List Alert × Nat :=
  highSeverityFlags.foldl
    (fun acc f =>
      if f ∈ snap.flags then
        raiseAlert acc.1 acc.2 ts snap.session_id f .HIGH
          ("high-severity flag " ++ f) snap.max_risk
      else acc)
    acc

/-- Modelled from the spec: the scanner-burst rule — `path-sweep` raises
a MED-severity alert (spec §4.4). -/
def evalSweep (snap : Session) (ts : Nat) (acc : List Alert × Nat) :
    List Alert × Nat :=
  if "path-sweep" ∈ snap.flags then
    raiseAlert acc.1 acc.2 ts snap.session_id "path-sweep" .MED
      "scanner burst detected" snap.max_risk
  else acc

/-- Modelled from the spec: `evaluate(snapshot)` — the Alert Engine
raising rules in fixed priority order, all applicable rules firing
(spec §4.4). -/
def evaluate (snap : Session) (prevLevel : RiskLevel)
    (alerts : List Alert) (nid : Nat) (ts : Nat) : List Alert × Nat :=
  evalSweep snap ts
    (evalHighFlags snap ts (evalRiskCross snap prevLevel alerts nid ts))

/-- Modelled from the spec: the authoritative engine state — the Session
Store map, the Alert Engine's records and the id counters (spec §4.3,
§4.4). -/
structure SystemState where
  sessions : List Session
  alerts : List Alert
  next_alert_id : Nat
  next_deception_id : Nat
  deriving Repr, DecidableEq

/-- Fresh engine state. -/
def initState : SystemState := ⟨[], [], 0, 0⟩

/-- Modelled from the spec: resolve or create the Session for the event's
(ip, user_agent) key (spec §4.3 step 1). -/
def baseOf (st : SystemState) (e : RequestEvent) : Session :=
  (st.sessions.find? (keyMatch e.ip e.user_agent)).getD
    (freshSession e.ip e.user_agent)

/-- Classification of the event against the resolved session's recent
window (spec §2, §4.2). -/
def clsOf (sigs : List EvalSig) (st : SystemState) (e : RequestEvent) :
    ClassificationResult :=
  classifyWith sigs e (baseOf st e).history

/-- The session snapshot produced by recording the event (spec §4.3). -/
def snapOf (sigs : List EvalSig) (st : SystemState) (e : RequestEvent) :
    Session :=
  applyRecord e (clsOf sigs st e) (baseOf st e)

/-- The deception record and response payload built for the event
(spec §4.5). -/
def decPayloadOf (sigs : List EvalSig) (st : SystemState)
    (e : RequestEvent) : DeceptionRecord × ResponsePayload :=
  build st.next_deception_id e (clsOf sigs st e)

/-- The recorded snapshot with the deception record attached to the
session's bounded deception history (spec §3). -/
def snap2Of (sigs : List EvalSig) (st : SystemState) (e : RequestEvent) :
    Session :=
  { snapOf sigs st e with
      deceptions := trimOld historyCap
        ((snapOf sigs st e).deceptions ++ [(decPayloadOf sigs st e).1]) }

/-- The Alert Engine's output for the event (spec §4.4). -/
def alertsOf (sigs : List EvalSig) (st : SystemState) (e : RequestEvent) :
    List Alert × Nat :=
  evaluate (snapOf sigs st e) (baseOf st e).risk_level st.alerts
    st.next_alert_id e.timestamp

/-- Write the updated session back into the store: replace the session
with the event's key, or append a newly created one (spec §4.3). -/
def updatedSessions (sessions : List Session) (ip ua : String)
    (snap2 : Session) : List Session :=
  if sessions.any (keyMatch ip ua) then
    sessions.map (fun s => if keyMatch ip ua s then snap2 else s)
  else sessions ++ [snap2]

/-- Modelled from the spec: the per-event pipeline (spec §2): classify the
event against the session's recent window, record it into the Session
Store, let the Alert Engine evaluate the snapshot, build the deception
response, and attach the deception record to the session. -/
def handleEventWith (sigs : List EvalSig) (st : SystemState)
    (e : RequestEvent) : SystemState × ResponsePayload :=
  (⟨updatedSessions st.sessions e.ip e.user_agent (snap2Of sigs st e),
    (alertsOf sigs st e).1, (alertsOf sigs st e).2,
    st.next_deception_id + 1⟩,
   (decPayloadOf sigs st e).2)

/-- The pipeline over the loaded signature library. -/
def handleEvent (st : SystemState) (e : RequestEvent) :
    SystemState × ResponsePayload :=
  handleEventWith baseSignatures st e

/-- Replay a sequence of events into a state. -/
def replay (es : List RequestEvent) (st : SystemState) : SystemState :=
  es.foldl (fun s e => (handleEvent s e).1) st

/-- Modelled from the spec: operator acknowledgement of an alert by id
(spec §4.4, §6; invalid transitions are no-ops per spec §7). -/
def ackAlert (st : SystemState) (aid : Nat) : SystemState :=
  { st with alerts := st.alerts.map (fun a =>
      if a.alert_id == aid && a.status == .OPEN then { a with status := .ACK }
      else a) }

/-- Modelled from the spec: operator closing of an alert by id (spec §4.4,
§6; closing an already-closed alert is a no-op per spec §7). -/
def closeAlert (st : SystemState) (aid : Nat) : SystemState :=
  { st with alerts := st.alerts.map (fun a =>
      if a.alert_id == aid && !(a.status == .CLOSED) then
        { a with status := .CLOSED }
      else a) }

/-- States reachable from the fresh engine state through inbound events
and operator alert actions. -/
inductive Reachable : SystemState → Prop where
  | init : Reachable initState
  | step (st : SystemState) (e : RequestEvent) :
      Reachable st → Reachable (handleEvent st e).1
  | ack (st : SystemState) (aid : Nat) :
      Reachable st → Reachable (ackAlert st aid)
  | close (st : SystemState) (aid : Nat) :
      Reachable st → Reachable (closeAlert st aid)

/-- Replaying relation: `Replays st es st'` holds when feeding the event
sequence `es` through the pipeline starting at `st` can end at `st'`. -/
inductive Replays : SystemState → List RequestEvent → SystemState → Prop where
  | nil (st : SystemState) : Replays st [] st
  | cons (st : SystemState) (e : RequestEvent) (es : List RequestEvent)
      (st' : SystemState) :
      Replays (handleEvent st e).1 es st' → Replays st (e :: es) st'

/-- Insert a session into a list kept sorted by max_risk descending. -/
def insertByRisk (s : Session) : List Session → List Session
  | [] => [s]
  | t :: ts =>
      if t.max_risk ≤ s.max_risk then s :: t :: ts else t :: insertByRisk s ts

/-- Sessions sorted by max_risk descending. -/
def sortByRisk (l : List Session) : List Session :=
  l.foldr insertByRisk []

/-- Insert a session into a list kept sorted by last_seen descending. -/
def insertBySeen (s : Session) : List Session → List Session
  | [] => [s]
  | t :: ts =>
      if t.last_seen ≤ s.last_seen then s :: t :: ts else t :: insertBySeen s ts

/-- Sessions sorted by last_seen descending. -/
def sortBySeen (l : List Session) : List Session :=
  l.foldr insertBySeen []

/-- Count the sessions at a given risk level. -/
def countLevel (l : List Session) (lv : RiskLevel) : Nat :=
  (l.filter (fun s => s.risk_level == lv)).length

/-- Modelled from the spec: the `overview` projection — total sessions,
open alert count, risk-level histogram and the top sessions by max_risk
(spec §4.6, §6). -/
structure OverviewResult where
  ok : Bool
  total_sessions : Nat
  open_alerts : Nat
  by_level : Nat × Nat × Nat × Nat
  top_sessions : List Session
  deriving Repr, DecidableEq

/-- Modelled from the spec: `overview()` of the Query/Reporting Facade, a
pure read returning its projection together with the untouched state
(spec §4.6). -/
def overviewQ (st : SystemState) : OverviewResult × SystemState :=
  (⟨true,
    st.sessions.length,
    (st.alerts.filter (fun a => a.status == .OPEN)).length,
    (countLevel st.sessions .LOW, countLevel st.sessions .MED,
     countLevel st.sessions .HIGH, countLevel st.sessions .CRITICAL),
    (sortByRisk st.sessions).take 5⟩,
   st)

/-- Modelled from the spec: `sessions(limit)` — sessions ordered by
last_seen descending, a pure read (spec §4.6). -/
def sessionsQ (st : SystemState) (limit : Nat) :
    List Session × SystemState :=
  ((sortBySeen st.sessions).take limit, st)

/-- Modelled from the spec: `alerts(status, limit)` — alerts filtered by
status, a pure read (spec §4.6). -/
def alertsQ (st : SystemState) (status : AlertStatus) (limit : Nat) :
    List Alert × SystemState :=
  ((st.alerts.filter (fun a => a.status == status)).take limit, st)

/-- Modelled from the spec: `session(id, events, deceptions)` — the full
snapshot with bounded histories, an explicit not-found on a lookup miss
(spec §4.6; spec §7 `UnknownSession`), a pure read. -/
def sessionQ (st : SystemState) (sid : String) (ne nd : Nat) :
    Option (Session × List (Nat × String) × List DeceptionRecord) ×
      SystemState :=
  (match st.sessions.find? (fun s => s.session_id == sid) with
   | none => none
   | some s =>
       some (s, (s.history.reverse.take ne).reverse,
             (s.deceptions.reverse.take nd).reverse),
   st)

/-- Shape of a browser fetch Response as the dashboard API client sees
it: the ok flag, the numeric HTTP status, the status text, and the parsed
JSON body that `res.json()` would yield. -/
structure FetchResponse where
  ok : Bool
  status : Nat
  statusText : String
  jsonBody : String
  deriving Repr, DecidableEq

/-- The dashboard API client helper `jget` (src api client): rejects with
an Error carrying `status statusText` when the response is not ok, and
resolves with the parsed JSON body otherwise. -/
def jget (res : FetchResponse) : Except String String :=
  if !res.ok then .error (toString res.status ++ " " ++ res.statusText)
  else .ok res.jsonBody

/-- The dashboard API client's `overview` call: `jget` on the overview
endpoint (src api client). -/
def apiOverview (fetchFn : String → FetchResponse) : Except String String :=
  jget (fetchFn "/dashboard/api/overview")

/-- The dashboard API client's `sessions` call (src api client). -/
def apiSessions (fetchFn : String → FetchResponse) (limit : Nat) :
    Except String String :=
  jget (fetchFn ("/dashboard/api/sessions?limit=" ++ toString limit))

/-- The dashboard API client's `alerts` call (src api client); the status
argument is URI-encoded by the given encoder. -/
def apiAlerts (fetchFn : String → FetchResponse) (enc : String → String)
    (status : String) (limit : Nat) : Except String String :=
  jget (fetchFn ("/dashboard/api/alerts?status=" ++ enc status ++
    "&limit=" ++ toString limit))

/-- The dashboard API client's `session` call (src api client). -/
def apiSession (fetchFn : String → FetchResponse) (enc : String → String)
    (sid : String) (events deceptions : Nat) : Except String String :=
  jget (fetchFn ("/dashboard/api/session?session_id=" ++ enc sid ++
    "&events=" ++ toString events ++ "&deceptions=" ++ toString deceptions))

/-- Demo attacker event from one fixed (ip, user_agent) key, as issued by
the simulation script's curl calls. -/
def demoEvent (ts : Nat) (p : String) : RequestEvent :=
  ⟨ts, "198.51.100.7", "curl/8", "GET", p, "", [], "", none, none, none⟩

/-- State after one demo reconnaissance probe. -/
def demoState1 : SystemState :=
  (handleEvent initState (demoEvent 0 "/admin")).1

/-- State after the reconnaissance scenario GET /admin, GET /config,
GET /backup from a new (ip, ua) key (simulate_attack.sh phase 1). -/
def demoState : SystemState :=
  replay [demoEvent 0 "/admin", demoEvent 1 "/config", demoEvent 2 "/backup"]
    initState

/-- Demo rce-attempt event GET /api/exec?cmd=whoami
(simulate_attack.sh phase 5). -/
def rceDemoEvent : RequestEvent :=
  ⟨0, "203.0.113.5", "curl/8", "GET", "/api/exec", "cmd=whoami",
   [("cmd", "whoami")], "", none, none, none⟩

/-- The ten scanner-burst events of the simulation script's phase 6: ten
distinct endpoints hit within two seconds from one (ip, ua) key. -/
def sweepEvents : List RequestEvent :=
  [demoEvent 0 "/.env", demoEvent 0 "/.git/config", demoEvent 0 "/wp-admin",
   demoEvent 0 "/phpmyadmin", demoEvent 0 "/actuator", demoEvent 1 "/debug",
   demoEvent 1 "/trace", demoEvent 1 "/metrics", demoEvent 1 "/swagger.json",
   demoEvent 1 "/graphql"]

/-- State after the scanner-burst scenario. -/
def sweepState : SystemState := replay sweepEvents initState

/-- The recent window the sixth scanner-burst event is classified
against: the five earlier (timestamp, path) pairs. -/
def sweepWindow5 : List (Nat × String) :=
  [(0, "/.env"), (0, "/.git/config"), (0, "/wp-admin"), (0, "/phpmyadmin"),
   (0, "/actuator")]

/-- A signature whose evaluator always fails, exercising the
`SignatureEvaluationError` isolation policy (spec §7). -/
def faultySig : EvalSig := ⟨"broken", fun _ _ => .error "fault"⟩

/-- Well-formedness of the Session Store: no two sessions share the
(ip, user_agent) key (spec §4.3: a single authoritative map). -/
def sessKeysOK (l : List Session) : Prop :=
  l.Pairwise (fun a b => ¬(a.ip = b.ip ∧ a.user_agent = b.user_agent))

/-- The alert dedup invariant: no two alerts whose status differs from
CLOSED share the (session_id, type) dedup key (spec §3 invariant). -/
def alertsDedupOK (l : List Alert) : Prop :=
  l.Pairwise (fun a b => a.status ≠ .CLOSED → b.status ≠ .CLOSED →
    ¬(a.session_id = b.session_id ∧ a.type = b.type))

/-- The engine's global well-formedness: unique session keys, alert
dedup, and `risk_level` always the threshold function of `max_risk`. -/
def stateOK (st : SystemState) : Prop :=
  sessKeysOK st.sessions ∧ alertsDedupOK st.alerts ∧
  ∀ s ∈ st.sessions, s.risk_level = riskLevelOf s.max_risk

/-- The single session of the one-probe demo state, for concrete
witnesses. -/
def demoSession1 : Session :=
  demoState1.sessions.headD (freshSession "" "")

end Honeypot

namespace Honeypot

/-! Helper lemmas about the session record mutation. -/

/-- Recording never changes the session's ip. -/
theorem applyRecord_ip (e : RequestEvent) (cls : ClassificationResult)
    (s : Session) : (applyRecord e cls s).ip = s.ip := rfl

/-- Recording never changes the session's user agent. -/
theorem applyRecord_ua (e : RequestEvent) (cls : ClassificationResult)
    (s : Session) : (applyRecord e cls s).user_agent = s.user_agent := rfl

/-- The recorded max_risk is the running maximum. -/
theorem applyRecord_max_risk (e : RequestEvent) (cls : ClassificationResult)
    (s : Session) :
    (applyRecord e cls s).max_risk =
      max s.max_risk (s.running_total + cls.delta_score) := rfl

/-- Recording recomputes risk_level from the new max_risk. -/
theorem applyRecord_risk_level (e : RequestEvent)
    (cls : ClassificationResult) (s : Session) :
    (applyRecord e cls s).risk_level =
      riskLevelOf (applyRecord e cls s).max_risk := rfl

/-- Unfolding of the session key predicate. -/
theorem keyMatch_iff (ip ua : String) (s : Session) :
    keyMatch ip ua s = true ↔ s.ip = ip ∧ s.user_agent = ua := by
  simp [keyMatch]

/-- The written-back session keeps the event's ip. -/
theorem snap2Of_ip (sigs : List EvalSig) (st : SystemState)
    (e : RequestEvent) : (snap2Of sigs st e).ip = e.ip := by
  show (baseOf st e).ip = e.ip
  unfold baseOf
  cases h : st.sessions.find? (keyMatch e.ip e.user_agent) with
  | none => rfl
  | some b => exact ((keyMatch_iff _ _ _).1 (List.find?_some h)).1

/-- The written-back session keeps the event's user agent. -/
theorem snap2Of_ua (sigs : List EvalSig) (st : SystemState)
    (e : RequestEvent) : (snap2Of sigs st e).user_agent = e.user_agent := by
  show (baseOf st e).user_agent = e.user_agent
  unfold baseOf
  cases h : st.sessions.find? (keyMatch e.ip e.user_agent) with
  | none => rfl
  | some b => exact ((keyMatch_iff _ _ _).1 (List.find?_some h)).2

/-- The written-back session's risk_level is the threshold function of
its max_risk. -/
theorem snap2Of_risk_level (sigs : List EvalSig) (st : SystemState)
    (e : RequestEvent) :
    (snap2Of sigs st e).risk_level = riskLevelOf (snap2Of sigs st e).max_risk :=
  rfl

/-- The resolved session's max_risk never exceeds the written-back one. -/
theorem base_maxRisk_le_snap2Of (sigs : List EvalSig) (st : SystemState)
    (e : RequestEvent) (b : Session)
    (h : st.sessions.find? (keyMatch e.ip e.user_agent) = some b) :
    b.max_risk ≤ (snap2Of sigs st e).max_risk := by
  show b.max_risk ≤ (snapOf sigs st e).max_risk
  unfold snapOf
  rw [applyRecord_max_risk]
  have hb : baseOf st e = b := by unfold baseOf; rw [h]; rfl
  rw [hb]
  exact le_max_left _ _

/-! The Query/Reporting Facade claims. -/

/-- C9: every Query/Reporting Facade operation (overview, sessions,
alerts, session detail) returns the Session Store and Alert Engine state
unchanged: each query's post-state equals its pre-state. -/
theorem facade_pure_reads (st : SystemState) (limit ne nd : Nat)
    (status : AlertStatus) (sid : String) :
    (overviewQ st).2 = st ∧ (sessionsQ st limit).2 = st ∧
    (alertsQ st status limit).2 = st ∧ (sessionQ st sid ne nd).2 = st :=
  ⟨rfl, rfl, rfl, rfl⟩

/-- C10: the dashboard API client rejects with an Error carrying the HTTP
status code and status text whenever the response is not ok, resolves with
the parsed JSON body otherwise, and each of the four api operations
(overview, sessions, alerts, session) is exactly `jget` of its fetched
response, so no failed request silently yields empty or default data. -/
theorem jget_error_contract (res : FetchResponse)
    (fetchFn : String → FetchResponse) (enc : String → String)
    (limit events deceptions : Nat) (status sid : String) :
    (res.ok = false →
      jget res = .error (toString res.status ++ " " ++ res.statusText)) ∧
    (res.ok = true → jget res = .ok res.jsonBody) ∧
    apiOverview fetchFn = jget (fetchFn "/dashboard/api/overview") ∧
    apiSessions fetchFn limit =
      jget (fetchFn ("/dashboard/api/sessions?limit=" ++ toString limit)) ∧
    apiAlerts fetchFn enc status limit =
      jget (fetchFn ("/dashboard/api/alerts?status=" ++ enc status ++
        "&limit=" ++ toString limit)) ∧
    apiSession fetchFn enc sid events deceptions =
      jget (fetchFn ("/dashboard/api/session?session_id=" ++ enc sid ++
        "&events=" ++ toString events ++ "&deceptions=" ++
        toString deceptions)) := by
  refine ⟨?_, ?_, rfl, rfl, rfl, rfl⟩
  · intro h; simp [jget, h]
  · intro h; simp [jget, h]

/-- Witness for C10 at a concrete failed and a concrete successful
response. -/
theorem jget_error_contract_witness :
    jget ⟨false, 404, "Not Found", "null"⟩ =
      .error (toString (404 : Nat) ++ " " ++ "Not Found") ∧
    jget ⟨true, 200, "OK", "null"⟩ = .ok "null" :=
  ⟨(jget_error_contract ⟨false, 404, "Not Found", "null"⟩
      (fun _ => ⟨true, 200, "OK", "null"⟩) id 0 0 0 "" "").1 rfl,
   (jget_error_contract ⟨true, 200, "OK", "null"⟩
      (fun _ => ⟨true, 200, "OK", "null"⟩) id 0 0 0 "" "").2.1 rfl⟩

/-! Determinism claims. -/

/-- Replaying a fixed event sequence from a fixed state can end in only
one state. -/
theorem replays_deterministic (st : SystemState) (es : List RequestEvent) :
    ∀ s1 s2, Replays st es s1 → Replays st es s2 → s1 = s2 := by
  induction es generalizing st with
  | nil =>
      intro s1 s2 h1 h2
      cases h1; cases h2; rfl
  | cons e es ih =>
      intro s1 s2 h1 h2
      cases h1 with
      | cons _ _ _ _ h1' =>
        cases h2 with
        | cons _ _ _ _ h2' => exact ih _ _ _ h1' h2'

/-- C6: the classifier is a pure function — identical inputs yield
identical ClassificationResults — and replaying the same event sequence
twice into fresh stores yields identical final Session and Alert
states. -/
theorem classifier_deterministic_replayable :
    (∀ (e e' : RequestEvent) (w w' : List (Nat × String)),
      e = e' → w = w' → classify e w = classify e' w') ∧
    (∀ (st : SystemState) (es : List RequestEvent) (s1 s2 : SystemState),
      Replays st es s1 → Replays st es s2 → s1 = s2) ∧
    (∀ (es : List RequestEvent) (s1 s2 : SystemState),
      Replays initState es s1 → Replays initState es s2 →
      s1.sessions = s2.sessions ∧ s1.alerts = s2.alerts) := by
  refine ⟨?_, ?_, ?_⟩
  · intro e e' w w' he hw; rw [he, hw]
  · intro st es s1 s2 h1 h2; exact replays_deterministic st es s1 s2 h1 h2
  · intro es s1 s2 h1 h2
    have h := replays_deterministic initState es s1 s2 h1 h2
    exact ⟨by rw [h], by rw [h]⟩

/-- Witness for C6: two replays of the same one-event sequence from the
fresh store end in the same state. -/
theorem classifier_deterministic_replayable_witness :
    demoState1 = demoState1 :=
  classifier_deterministic_replayable.2.1 initState [demoEvent 0 "/admin"]
    demoState1 demoState1
    (Replays.cons _ _ _ _ (Replays.nil _))
    (Replays.cons _ _ _ _ (Replays.nil _))

end Honeypot

namespace Honeypot

/-- C1: the Deception Responder never performs a real privileged
operation: it is a pure function whose every intel field merely echoes
attacker-supplied input in structured form (the command string, the
submitted credentials, the probed path), and for the rce-attempt event
with command `whoami` the returned payload is exactly the fabricated
output table's entry, with the command echoed as intel and nothing
executed. -/
theorem deception_responder_never_executes :
    (∀ (did : Nat) (e : RequestEvent) (cls : ClassificationResult),
      ((build did e cls).1.command_intel = none ∨
        (build did e cls).1.command_intel = some ((extractCmd e).getD e.body)) ∧
      ((build did e cls).1.admin_intel = none ∨
        (build did e cls).1.admin_intel = some ⟨e.path⟩) ∧
      ((build did e cls).1.credential_intel = none ∨
        ∃ u pw, e.body_username = some u ∧ e.body_password = some pw ∧
          (build did e cls).1.credential_intel =
            some ⟨u, pw, credentialPattern u⟩)) ∧
    (build 0 rceDemoEvent (classify rceDemoEvent [])).2.body =
      fabricatedCmdOutput "whoami" ∧
    fabricatedCmdOutput "whoami" = "root" ∧
    (build 0 rceDemoEvent (classify rceDemoEvent [])).1.command_intel =
      some "whoami" := by
  refine ⟨?_, by decide, by decide, by decide⟩
  intro did e cls
  unfold build
  cases hu : e.body_username with
  | some u =>
      cases hp : e.body_password with
      | some pw =>
          exact ⟨Or.inl rfl, Or.inl rfl, Or.inr ⟨u, pw, rfl, rfl, rfl⟩⟩
      | none =>
          split_ifs <;> simp
  | none =>
      split_ifs <;> simp

end Honeypot

namespace Honeypot

/-- Evaluating a signature list in which one signature always fails
yields exactly the matches of the remaining signatures: the faulty
signature is isolated and skipped. -/
theorem evalSignatures_skips_faulty (pre post : List EvalSig)
    (bad : EvalSig)
    (hbad : ∀ e' w', ∃ msg, bad.eval e' w' = .error msg) :
    ∀ (e : RequestEvent) (w : List (Nat × String)),
      evalSignatures (pre ++ bad :: post) e w =
        evalSignatures (pre ++ post) e w := by
  intro e w
  unfold evalSignatures
  rw [List.foldr_append, List.foldr_append, List.foldr_cons]
  obtain ⟨msg, hm⟩ := hbad e w
  simp only [hm]

/-- C8: classification and session recording never fail the caller's
request: a signature whose evaluation raises a SignatureEvaluationError
is skipped without aborting classification, and the whole per-event
pipeline — including the deception response served to the caller — is
exactly what it would be without the faulty signature. -/
theorem classification_never_fails (pre post : List EvalSig)
    (bad : EvalSig) (st : SystemState) (e : RequestEvent)
    (w : List (Nat × String))
    (hbad : ∀ e' w', ∃ msg, bad.eval e' w' = .error msg) :
    classifyWith (pre ++ bad :: post) e w = classifyWith (pre ++ post) e w ∧
    handleEventWith (pre ++ bad :: post) st e =
      handleEventWith (pre ++ post) st e := by
  have hev := evalSignatures_skips_faulty pre post bad hbad
  have hcls : ∀ (e' : RequestEvent) (w' : List (Nat × String)),
      classifyWith (pre ++ bad :: post) e' w' =
        classifyWith (pre ++ post) e' w' := by
    intro e' w'; unfold classifyWith; rw [hev]
  refine ⟨hcls e w, ?_⟩
  unfold handleEventWith alertsOf snap2Of decPayloadOf snapOf clsOf
  rw [hcls]

/-- Witness for C8: an always-failing signature prepended to the loaded
library changes neither the classification of the demo rce event nor the
pipeline's response. -/
theorem classification_never_fails_witness :
    classifyWith ([] ++ faultySig :: baseSignatures) rceDemoEvent [] =
      classifyWith ([] ++ baseSignatures) rceDemoEvent [] ∧
    handleEventWith ([] ++ faultySig :: baseSignatures) initState rceDemoEvent =
      handleEventWith ([] ++ baseSignatures) initState rceDemoEvent :=
  classification_never_fails [] baseSignatures faultySig initState
    rceDemoEvent [] (fun _ _ => ⟨"fault", rfl⟩)

end Honeypot

namespace Honeypot

/-- The in-place raise update keeps an alert's dedup key and status. -/
theorem raiseUpdate_proj (sid ty : String) (ts risk : Nat) (x : Alert) :
    (if openKeyMatch sid ty x then { x with risk := risk, timestamp := ts }
      else x).session_id = x.session_id ∧
    (if openKeyMatch sid ty x then { x with risk := risk, timestamp := ts }
      else x).type = x.type ∧
    (if openKeyMatch sid ty x then { x with risk := risk, timestamp := ts }
      else x).status = x.status := by
  split_ifs <;> exact ⟨rfl, rfl, rfl⟩

/-- Raising an alert preserves the dedup invariant: it either updates the
existing open alert in place or appends a fresh OPEN alert whose dedup
key no non-CLOSED alert holds. -/
theorem raiseAlert_dedup (alerts : List Alert) (nid ts : Nat)
    (sid ty : String) (sev : RiskLevel) (reason : String) (risk : Nat)
    (h : alertsDedupOK alerts) :
    alertsDedupOK (raiseAlert alerts nid ts sid ty sev reason risk).1 := by
  unfold raiseAlert
  by_cases hany : alerts.any (openKeyMatch sid ty) = true
  · rw [if_pos hany]
    refine List.Pairwise.map _ (fun a b hab => ?_) h
    intro hfa hfb hkeys
    rw [(raiseUpdate_proj sid ty ts risk a).1,
        (raiseUpdate_proj sid ty ts risk a).2.1,
        (raiseUpdate_proj sid ty ts risk b).1,
        (raiseUpdate_proj sid ty ts risk b).2.1] at hkeys
    rw [(raiseUpdate_proj sid ty ts risk a).2.2] at hfa
    rw [(raiseUpdate_proj sid ty ts risk b).2.2] at hfb
    exact hab hfa hfb hkeys
  · rw [if_neg hany]
    unfold alertsDedupOK
    rw [List.pairwise_append]
    refine ⟨h, List.pairwise_singleton _ _, ?_⟩
    intro a ha b hb
    simp only [List.mem_singleton] at hb
    subst hb
    intro hna _ hkeys
    apply hany
    refine List.any_eq_true.2 ⟨a, ha, ?_⟩
    have h1 : a.session_id = sid := hkeys.1
    have h2 : a.type = ty := hkeys.2
    simp [openKeyMatch, h1, h2, hna]

/-- The risk-crossing rule preserves the alert dedup invariant. -/
theorem evalRiskCross_dedup (snap : Session) (prevLevel : RiskLevel)
    (alerts : List Alert) (nid ts : Nat) (h : alertsDedupOK alerts) :
    alertsDedupOK (evalRiskCross snap prevLevel alerts nid ts).1 := by
  unfold evalRiskCross
  split_ifs with hc
  · exact raiseAlert_dedup _ _ _ _ _ _ _ _ h
  · exact h

/-- The high-severity-flag rule preserves the alert dedup invariant. -/
theorem evalHighFlags_dedup (snap : Session) (ts : Nat)
    (acc : List Alert × Nat) (h : alertsDedupOK acc.1) :
    alertsDedupOK (evalHighFlags snap ts acc).1 := by
  unfold evalHighFlags
  generalize highSeverityFlags = fs
  induction fs generalizing acc with
  | nil => exact h
  | cons f fs ih =>
      rw [List.foldl_cons]
      apply ih
      split_ifs with hf
      · exact raiseAlert_dedup _ _ _ _ _ _ _ _ h
      · exact h

/-- The scanner-burst rule preserves the alert dedup invariant. -/
theorem evalSweep_dedup (snap : Session) (ts : Nat)
    (acc : List Alert × Nat) (h : alertsDedupOK acc.1) :
    alertsDedupOK (evalSweep snap ts acc).1 := by
  unfold evalSweep
  split_ifs with hc
  · exact raiseAlert_dedup _ _ _ _ _ _ _ _ h
  · exact h

/-- The whole Alert Engine evaluation preserves the dedup invariant. -/
theorem evaluate_dedup (snap : Session) (prevLevel : RiskLevel)
    (alerts : List Alert) (nid ts : Nat) (h : alertsDedupOK alerts) :
    alertsDedupOK (evaluate snap prevLevel alerts nid ts).1 :=
  evalSweep_dedup _ _ _ (evalHighFlags_dedup _ _ _
    (evalRiskCross_dedup _ _ _ _ _ h))

/-- Mapping a key- and openness-preserving function over the alert list
preserves the dedup invariant. -/
theorem dedup_map_status (f : Alert → Alert)
    (hsid : ∀ a, (f a).session_id = a.session_id)
    (hty : ∀ a, (f a).type = a.type)
    (hst : ∀ a, (f a).status ≠ .CLOSED → a.status ≠ .CLOSED)
    (l : List Alert) (h : alertsDedupOK l) : alertsDedupOK (l.map f) := by
  refine List.Pairwise.map _ (fun a b hab => ?_) h
  intro hfa hfb hkeys
  rw [hsid a, hty a, hsid b, hty b] at hkeys
  exact hab (hst a hfa) (hst b hfb) hkeys

end Honeypot

namespace Honeypot

/-- Every member of the written-back store is the new snapshot or an old
member. -/
theorem updatedSessions_mem (l : List Session) (ip ua : String)
    (snap2 : Session) (x : Session)
    (hx : x ∈ updatedSessions l ip ua snap2) : x = snap2 ∨ x ∈ l := by
  unfold updatedSessions at hx
  by_cases hany : l.any (keyMatch ip ua) = true
  · rw [if_pos hany] at hx
    rcases List.mem_map.1 hx with ⟨a, ha, rfl⟩
    by_cases hk : keyMatch ip ua a = true
    · rw [if_pos hk]; exact Or.inl rfl
    · rw [if_neg hk]; exact Or.inr ha
  · rw [if_neg hany] at hx
    rcases List.mem_append.1 hx with hmem | hmem
    · exact Or.inr hmem
    · simp only [List.mem_singleton] at hmem
      exact Or.inl hmem

/-- Writing the snapshot back keeps session keys pairwise distinct. -/
theorem updatedSessions_keysOK (l : List Session) (ip ua : String)
    (snap2 : Session) (hip : snap2.ip = ip) (hua : snap2.user_agent = ua)
    (hok : sessKeysOK l) : sessKeysOK (updatedSessions l ip ua snap2) := by
  unfold updatedSessions
  by_cases hany : l.any (keyMatch ip ua) = true
  · rw [if_pos hany]
    refine List.Pairwise.map _ (fun a b hab => ?_) hok
    have proj : ∀ x : Session,
        (if keyMatch ip ua x then snap2 else x).ip = x.ip ∧
        (if keyMatch ip ua x then snap2 else x).user_agent = x.user_agent := by
      intro x
      split_ifs with hk
      · obtain ⟨h1, h2⟩ := (keyMatch_iff ip ua x).1 hk
        exact ⟨by rw [hip, h1], by rw [hua, h2]⟩
      · exact ⟨rfl, rfl⟩
    intro hkeys
    rw [(proj a).1, (proj a).2, (proj b).1, (proj b).2] at hkeys
    exact hab hkeys
  · rw [if_neg hany]
    unfold sessKeysOK
    rw [List.pairwise_append]
    refine ⟨hok, List.pairwise_singleton _ _, ?_⟩
    intro a ha b hb
    simp only [List.mem_singleton] at hb
    subst hb
    intro hkeys
    apply hany
    refine List.any_eq_true.2 ⟨a, ha, (keyMatch_iff ip ua a).2 ⟨?_, ?_⟩⟩
    · rw [hkeys.1, hip]
    · rw [hkeys.2, hua]

/-- One pipeline step preserves the engine's global well-formedness. -/
theorem handleEvent_stateOK (st : SystemState) (e : RequestEvent)
    (h : stateOK st) : stateOK (handleEvent st e).1 := by
  obtain ⟨hk, hd, hl⟩ := h
  refine ⟨?_, ?_, ?_⟩
  · exact updatedSessions_keysOK _ _ _ _ (snap2Of_ip _ _ _) (snap2Of_ua _ _ _) hk
  · exact evaluate_dedup _ _ _ _ _ hd
  · intro s hs
    rcases updatedSessions_mem _ _ _ _ s hs with rfl | hmem
    · exact snap2Of_risk_level _ _ _
    · exact hl s hmem

/-- The fresh engine state is well-formed. -/
theorem initState_stateOK : stateOK initState :=
  ⟨List.Pairwise.nil, List.Pairwise.nil, by intro s hs; cases hs⟩

/-- Acknowledging an alert preserves the engine's well-formedness. -/
theorem ackAlert_stateOK (st : SystemState) (aid : Nat) (h : stateOK st) :
    stateOK (ackAlert st aid) := by
  obtain ⟨hk, hd, hl⟩ := h
  refine ⟨hk, ?_, hl⟩
  refine dedup_map_status _ ?_ ?_ ?_ _ hd
  · intro a; split_ifs <;> rfl
  · intro a; split_ifs <;> rfl
  · intro a hfa
    by_cases hc : (a.alert_id == aid && a.status == AlertStatus.OPEN) = true
    · have ho : a.status = .OPEN := by
        have hc2 := hc
        rw [Bool.and_eq_true] at hc2
        simpa using hc2.2
      rw [ho]; decide
    · rw [if_neg hc] at hfa
      exact hfa

/-- Closing an alert preserves the engine's well-formedness. -/
theorem closeAlert_stateOK (st : SystemState) (aid : Nat) (h : stateOK st) :
    stateOK (closeAlert st aid) := by
  obtain ⟨hk, hd, hl⟩ := h
  refine ⟨hk, ?_, hl⟩
  refine dedup_map_status _ ?_ ?_ ?_ _ hd
  · intro a; split_ifs <;> rfl
  · intro a; split_ifs <;> rfl
  · intro a hfa
    by_cases hc : (a.alert_id == aid && !(a.status == AlertStatus.CLOSED)) = true
    · rw [if_pos hc] at hfa
      exact absurd rfl hfa
    · rw [if_neg hc] at hfa
      exact hfa

/-- Every reachable engine state is well-formed: session keys are unique,
alert dedup holds, and risk_level is the threshold function of
max_risk. -/
theorem reachable_stateOK (st : SystemState) (h : Reachable st) :
    stateOK st := by
  induction h with
  | init => exact initState_stateOK
  | step st e _ ih => exact handleEvent_stateOK st e ih
  | ack st aid _ ih => exact ackAlert_stateOK st aid ih
  | close st aid _ ih => exact closeAlert_stateOK st aid ih

/-- The one-probe demo state is reachable. -/
theorem demoState1_reachable : Reachable demoState1 :=
  Reachable.step initState (demoEvent 0 "/admin") Reachable.init

/-- The reconnaissance demo state is reachable. -/
theorem demoState_reachable : Reachable demoState :=
  Reachable.step _ (demoEvent 2 "/backup")
    (Reachable.step _ (demoEvent 1 "/config")
      (Reachable.step _ (demoEvent 0 "/admin") Reachable.init))

end Honeypot

namespace Honeypot

/-- C3: risk_level is a pure, deterministic, monotonic function of
max_risk alone, computed from non-overlapping thresholds (CRITICAL ≥ 80,
HIGH 60–79, MED 30–59, LOW otherwise), and at every reachable state no
session's risk_level is ever set independently of its max_risk. -/
theorem risk_level_threshold_function :
    (∀ a b : Nat, a ≤ b → (riskLevelOf a).rank ≤ (riskLevelOf b).rank) ∧
    (∀ r : Nat,
      (riskLevelOf r = .CRITICAL ↔ 80 ≤ r) ∧
      (riskLevelOf r = .HIGH ↔ 60 ≤ r ∧ r ≤ 79) ∧
      (riskLevelOf r = .MED ↔ 30 ≤ r ∧ r ≤ 59) ∧
      (riskLevelOf r = .LOW ↔ r ≤ 29)) ∧
    (∀ st : SystemState, Reachable st →
      ∀ s ∈ st.sessions, s.risk_level = riskLevelOf s.max_risk) := by
  refine ⟨?_, ?_, ?_⟩
  · intro a b hab
    unfold riskLevelOf
    split_ifs <;> simp [RiskLevel.rank] <;> omega
  · intro r
    unfold riskLevelOf
    refine ⟨?_, ?_, ?_, ?_⟩ <;> split_ifs <;> simp <;> omega
  · intro st h
    exact (reachable_stateOK st h).2.2

/-- Witness for C3: monotone at 42 ≤ 85, CRITICAAL at 85, and the demo
session's stored risk_level equals the threshold function of its
max_risk. -/
theorem risk_level_threshold_function_witness :
    (riskLevelOf 42).rank ≤ (riskLevelOf 85).rank ∧
    riskLevelOf 85 = RiskLevel.CRITICAL ∧
    demoSession1.risk_level = riskLevelOf demoSession1.max_risk :=
  ⟨risk_level_threshold_function.1 42 85 (by decide),
   (risk_level_threshold_function.2.1 85).1.mpr (by decide),
   risk_level_threshold_function.2.2 demoState1 demoState1_reachable
     demoSession1 (by decide)⟩

/-- C5: at every reachable state no two alerts whose status differs from
CLOSED share the (session_id, type) dedup key, and every raise either
appends a fresh OPEN alert (when no open alert holds the key) or updates
the risk/timestamp of the matching open alerts in place without
duplicating. -/
theorem alert_dedup_invariant :
    (∀ st : SystemState, Reachable st → alertsDedupOK st.alerts) ∧
    (∀ (alerts : List Alert) (nid ts : Nat) (sid ty : String)
        (sev : RiskLevel) (reason : String) (risk : Nat),
      (alerts.any (openKeyMatch sid ty) = false ∧
        raiseAlert alerts nid ts sid ty sev reason risk =
          (alerts ++ [⟨nid, ts, sid, sev, ty, reason, risk, .OPEN⟩],
           nid + 1)) ∨
      (alerts.any (openKeyMatch sid ty) = true ∧
        raiseAlert alerts nid ts sid ty sev reason risk =
          (alerts.map (fun a => if openKeyMatch sid ty a then
             { a with risk := risk, timestamp := ts } else a), nid))) := by
  constructor
  · intro st h
    exact (reachable_stateOK st h).2.1
  · intro alerts nid ts sid ty sev reason risk
    by_cases hany : alerts.any (openKeyMatch sid ty) = true
    · right
      exact ⟨hany, by unfold raiseAlert; rw [if_pos hany]⟩
    · left
      refine ⟨by simpa using hany, ?_⟩
      unfold raiseAlert
      rw [if_neg hany]

/-- Witness for C5: the dedup invariant at the concrete reconnaissance
demo state. -/
theorem alert_dedup_invariant_witness :
    alertsDedupOK demoState.alerts :=
  alert_dedup_invariant.1 demoState demoState_reachable

/-- In a key-distinct store, any member that matches a key is the find?
result for that key. -/
theorem find?_key_of_mem (l : List Session) (ip ua : String) (s : Session)
    (hok : sessKeysOK l) (hmem : s ∈ l) (hk : keyMatch ip ua s = true) :
    l.find? (keyMatch ip ua) = some s := by
  induction l with
  | nil => cases hmem
  | cons hd tl ih =>
      have hcons := List.pairwise_cons.1 hok
      rw [List.find?_cons]
      cases hh : keyMatch ip ua hd with
      | true =>
          rcases List.mem_cons.1 hmem with rfl | hmem'
          · rfl
          · exfalso
            obtain ⟨h1, h2⟩ := (keyMatch_iff ip ua hd).1 hh
            obtain ⟨h3, h4⟩ := (keyMatch_iff ip ua s).1 hk
            exact hcons.1 s hmem' ⟨by rw [h1, h3], by rw [h2, h4]⟩
      | false =>
          rcases List.mem_cons.1 hmem with rfl | hmem'
          · rw [hk] at hh; cases hh
          · exact ih hcons.2 hmem'

/-- C2: at every reachable store state, recording any further event never
decreases any session's max_risk: the session found for a key before the
record call has max_risk at most that of the session found for the same
key afterwards. -/
theorem session_max_risk_monotone (st : SystemState) (hr : Reachable st)
    (e : RequestEvent) (qip qua : String) (s : Session)
    (h : st.sessions.find? (keyMatch qip qua) = some s) :
    ∃ s', (handleEvent st e).1.sessions.find? (keyMatch qip qua) = some s' ∧
      s.max_risk ≤ s'.max_risk := by
  have hkeys : sessKeysOK st.sessions := (reachable_stateOK st hr).1
  have hsess : (handleEvent st e).1.sessions =
      updatedSessions st.sessions e.ip e.user_agent
        (snap2Of baseSignatures st e) := rfl
  rw [hsess]
  unfold updatedSessions
  by_cases hany : st.sessions.any (keyMatch e.ip e.user_agent) = true
  · rw [if_pos hany]
    have hpf : (keyMatch qip qua) ∘
        (fun x : Session => if keyMatch e.ip e.user_agent x then
          snap2Of baseSignatures st e else x) = keyMatch qip qua := by
      funext x
      show keyMatch qip qua (if keyMatch e.ip e.user_agent x then
        snap2Of baseSignatures st e else x) = keyMatch qip qua x
      split_ifs with hx
      · obtain ⟨h1, h2⟩ := (keyMatch_iff _ _ x).1 hx
        simp [keyMatch, snap2Of_ip, snap2Of_ua, h1, h2]
      · rfl
    rw [List.find?_map, hpf, h]
    refine ⟨_, rfl, ?_⟩
    show s.max_risk ≤ (if keyMatch e.ip e.user_agent s = true then
      snap2Of baseSignatures st e else s).max_risk
    by_cases hs : keyMatch e.ip e.user_agent s = true
    · rw [if_pos hs]
      have hmem := List.mem_of_find?_eq_some h
      have hfind : st.sessions.find? (keyMatch e.ip e.user_agent) = some s :=
        find?_key_of_mem _ _ _ _ hkeys hmem hs
      exact base_maxRisk_le_snap2Of _ _ _ _ hfind
    · rw [if_neg hs]
  · rw [if_neg hany]
    refine ⟨s, ?_, le_refl _⟩
    rw [List.find?_append, h]
    rfl

/-- Witness for C2: recording a further probe into the one-probe demo
state does not decrease the tracked session's max_risk. -/
theorem session_max_risk_monotone_witness :
    ∃ s0 s', demoState1.sessions.find? (keyMatch "198.51.100.7" "curl/8") =
        some s0 ∧
      ((handleEvent demoState1 (demoEvent 1 "/config")).1.sessions.find?
        (keyMatch "198.51.100.7" "curl/8")) = some s' ∧
      s0.max_risk ≤ s'.max_risk := by
  obtain ⟨s0, h0⟩ : ∃ s0, demoState1.sessions.find?
      (keyMatch "198.51.100.7" "curl/8") = some s0 := ⟨_, rfl⟩
  obtain ⟨s', h1, h2⟩ := session_max_risk_monotone demoState1
    demoState1_reachable (demoEvent 1 "/config") "198.51.100.7" "curl/8"
    s0 h0
  exact ⟨s0, s', h0, h1, h2⟩

end Honeypot

namespace Honeypot

/-- Membership in the distinct-path accumulator insertion. -/
theorem mem_addDistinct (acc : List String) (p x : String) :
    x ∈ addDistinct acc p ↔ x ∈ acc ∨ x = p := by
  unfold addDistinct
  split_ifs with hp
  · constructor
    · exact Or.inl
    · rintro (h | rfl)
      · exact h
      · exact hp
  · simp [List.mem_append]

/-- Membership in the distinct-path fold. -/
theorem mem_foldl_addDistinct (ps : List String) (x : String) :
    ∀ acc, x ∈ ps.foldl addDistinct acc ↔ x ∈ acc ∨ x ∈ ps := by
  induction ps with
  | nil => intro acc; simp
  | cons p ps ih =>
      intro acc
      rw [List.foldl_cons, ih, mem_addDistinct]
      simp [List.mem_cons, or_assoc]

/-- A path already hit inside the window is not counted twice toward the
distinct-path threshold. -/
theorem distinct_no_double (ps : List String) (p : String) (h : p ∈ ps) :
    distinctPaths (ps ++ [p]) = distinctPaths ps := by
  unfold distinctPaths
  rw [List.foldl_append]
  have hmem : p ∈ ps.foldl addDistinct [] :=
    (mem_foldl_addDistinct ps p []).2 (Or.inr h)
  show addDistinct (ps.foldl addDistinct []) p = ps.foldl addDistinct []
  generalize hacc : ps.foldl addDistinct [] = acc at hmem ⊢
  unfold addDistinct
  rw [if_pos hmem]

/-- Of the four loaded signatures, exactly the burst matcher can
contribute the `path-sweep` flag, and it does so exactly when the burst
condition holds. -/
theorem classify_path_sweep (e : RequestEvent) (w : List (Nat × String)) :
    hasFlag (classify e w) "path-sweep" = burstFires e w := by
  have hmat : (classify e w).matched =
      pathMatches e ++ (payloadMatches e ++ (credentialMatches e ++
        (burstMatches e w ++ []))) := rfl
  unfold hasFlag
  rw [hmat]
  simp only [List.any_append, List.append_nil]
  have h1 : (pathMatches e).any (fun m => m.flag == "path-sweep") = false := by
    unfold pathMatches pathSignatureTable
    simp only [List.foldr_cons, List.foldr_nil]
    split_ifs <;> simp
  have h2 : (payloadMatches e).any (fun m => m.flag == "path-sweep") = false := by
    unfold payloadMatches
    split_ifs <;> simp
  have h3 : (credentialMatches e).any (fun m => m.flag == "path-sweep") = false := by
    cases hu : e.body_username with
    | none => unfold credentialMatches; simp [hu]
    | some u =>
        unfold credentialMatches
        simp only [hu]
        split_ifs <;> simp
  have h4 : (burstMatches e w).any (fun m => m.flag == "path-sweep") =
      burstFires e w := by
    unfold burstMatches
    split_ifs with hb <;> simp [hb]
  rw [h1, h2, h3, h4]
  simp

/-- C7: the burst matcher contributes the `path-sweep` flag, worth +15
points, exactly when at least 6 distinct paths fall within the 5-second
window; a path repeated within the window is not counted twice toward
that threshold; and the concrete 10-endpoint sweep within 2 seconds
yields the flag and exactly one MED-severity OPEN alert. -/
theorem path_sweep_burst_matcher :
    (∀ (e : RequestEvent) (w : List (Nat × String)),
      (hasFlag (classify e w) "path-sweep" = true ↔
        6 ≤ (distinctPaths
          (recentPaths e.timestamp 5 w ++ [e.path])).length) ∧
      (burstFires e w = true →
        (⟨"path-sweep", 15, e.path⟩ : Match) ∈ (classify e w).matched)) ∧
    (∀ (ps : List String) (p : String), p ∈ ps →
      distinctPaths (ps ++ [p]) = distinctPaths ps) ∧
    (sweepState.sessions.map Session.flags = [["path-sweep"]] ∧
      (sweepState.alerts.filter (fun a => a.type == "path-sweep")).map
        (fun a => (a.severity, a.status)) =
          [(RiskLevel.MED, AlertStatus.OPEN)] ∧
      (⟨"path-sweep", 15, "/debug"⟩ : Match) ∈
        (classify (demoEvent 1 "/debug") sweepWindow5).matched) := by
  refine ⟨?_, fun ps p h => distinct_no_double ps p h, by decide⟩
  intro e w
  constructor
  · rw [classify_path_sweep]
    unfold burstFires
    exact decide_eq_true_iff
  · intro hb
    have hmat : (classify e w).matched =
        pathMatches e ++ (payloadMatches e ++ (credentialMatches e ++
          (burstMatches e w ++ []))) := rfl
    rw [hmat]
    refine List.mem_append.2 (Or.inr (List.mem_append.2 (Or.inr
      (List.mem_append.2 (Or.inr (List.mem_append.2 (Or.inl ?_)))))))
    unfold burstMatches
    rw [if_pos hb]
    exact List.mem_singleton.2 rfl

/-- Witness for C7: the sixth sweep event fires the burst matcher, and a
repeated path adds nothing to the distinct count. -/
theorem path_sweep_burst_matcher_witness :
    hasFlag (classify (demoEvent 1 "/debug") sweepWindow5) "path-sweep" =
      true ∧
    distinctPaths (["/a", "/b"] ++ ["/a"]) = distinctPaths ["/a", "/b"] :=
  ⟨(path_sweep_burst_matcher.1 (demoEvent 1 "/debug") sweepWindow5).1.mpr
      (by decide),
   path_sweep_burst_matcher.2.1 ["/a", "/b"] "/a" (by decide)⟩

/-- C4: recording GET /admin then GET /config then GET /backup from a new
(ip, ua) key creates exactly one session whose flags are admin-probe,
config-probe and backup-probe, whose max_risk is 25+30+30 = 85 and
risk_level CRITICAL, with exactly one risk-escalation alert raised
OPEN. -/
theorem recon_scenario_critical :
    demoState.sessions.length = 1 ∧
    demoState.sessions.map Session.flags =
      [["admin-probe", "config-probe", "backup-probe"]] ∧
    demoState.sessions.map Session.max_risk = [25 + 30 + 30] ∧
    demoState.sessions.map Session.risk_level = [RiskLevel.CRITICAL] ∧
    (demoState.alerts.filter (fun a => a.type == "risk-escalation")).map
      (fun a => a.status) = [AlertStatus.OPEN] := by
  decide

end Honeypot
